import Mathlib

/-!
Verification of the production-optimization notebook (`master.ipynb`).

The notebook builds a 4-variable integer linear program (t-shirt and jeans
production at two sites), hands it to an external MILP solver (pulp / CBC),
and prints the solution.  This file shallowly embeds the notebook's pure
parts — the coefficient-table reshape loop, the model (objective and five
constraints), and the reporting block — and models the two external
capabilities (numpy's seeded random source and the CBC solver) from the
specification, since their code is not part of the repository.

Rationals stand in for the Python floats; all values that actually occur are
integers, so this is exact.
-/

namespace ProdOpt

/-! ## The production-hours table and the extraction loop (cells 3 and 4)

Cell 3 draws eight integers `d 0 .. d 7`: the first four fill the Beşiktaş
2×2 frame (rows Cutting, Sewing; columns T-shirts, Jeans), the last four the
Davutpaşa frame, and the two frames are concatenated column-wise into the
2×4 `production_hours` table. -/

/-- The 2×4 `production_hours` dataframe of cell 3, as a function of the
eight drawn integers: row = process (0 Cutting, 1 Sewing), column =
(Beşiktaş T-shirts, Beşiktaş Jeans, Davutpaşa T-shirts, Davutpaşa Jeans). -/
def productionHours (d : Fin 8 → ℤ) : Fin 2 → Fin 4 → ℤ := fun i j =>
  match i, j with
  | 0, 0 => d 0
  | 0, 1 => d 1
  | 0, 2 => d 4
  | 0, 3 => d 5
  | 1, 0 => d 2
  | 1, 1 => d 3
  | 1, 2 => d 6
  | 1, 3 => d 7

/-- One step of the inner loop of cell 4: at an even column index the
`sub_constraint` list is restarted, the current entry is appended, and at an
odd column index the finished pair is pushed onto the row's constraint
list.  The state is `(constraint, sub_constraint)`. -/
def innerStep (row : Fin 4 → ℤ) (st : List (List ℤ) × List ℤ) (j : Fin 4) :
    List (List ℤ) × List ℤ :=
  let sub := (if (j : ℕ) % 2 = 0 then [] else st.2) ++ [row j]
  (if (j : ℕ) % 2 = 1 then st.1 ++ [sub] else st.1, sub)

/-- The inner loop of cell 4 applied to one row of `production_hours`. -/
def extractRow (row : Fin 4 → ℤ) : List (List ℤ) :=
  ((List.finRange 4).foldl (innerStep row) ([], [])).1

/-- The full extraction loop of cell 4: the nested `constraints` list,
indexed `constraints[i][j][k]` with `i` the process, `j` the site and `k`
the product. -/
def extractConstraints (tbl : Fin 2 → Fin 4 → ℤ) : List (List (List ℤ)) :=
  (List.finRange 2).map fun i => extractRow (tbl i)

/-- Python's `constraints[i][j][k]` subscripting on the nested list. -/
def coeffAt (cs : List (List (List ℤ))) (i j k : ℕ) : ℤ :=
  ((cs.getD i []).getD j []).getD k 0

/-! ## The LP model (cells 5–8) -/

/-- The four `LpVariable` declarations of cell 6 (name, lower bound,
category). -/
structure LpVar where
  name : String
  lowBound : ℤ
  cat : String
deriving DecidableEq

/-- The decision variables exactly as declared in cell 6: non-negative
integers. -/
def decisionVars : List LpVar :=
  [⟨"x_1", 0, "Integer"⟩, ⟨"x_2", 0, "Integer"⟩,
   ⟨"x_3", 0, "Integer"⟩, ⟨"x_4", 0, "Integer"⟩]

/-- The right-hand sides of the five constraints of cell 8.  In the
notebook they are the literals 80, 60, 60, 75 and 120; keeping them as a
parameter lets the infeasibility scenario of the spec vary them. -/
structure Caps where
  c1 : ℤ
  c2 : ℤ
  c3 : ℤ
  c4 : ℤ
  cloth : ℤ
deriving DecidableEq

/-- The capacities hard-coded in cell 8. -/
def defaultCaps : Caps := ⟨80, 60, 60, 75, 120⟩

/-- A value assignment to the four decision variables, as the (rational)
values pulp reports. -/
structure Sol where
  x1 : ℚ
  x2 : ℚ
  x3 : ℚ
  x4 : ℚ
deriving DecidableEq

/-- The assignment with the four given natural numbers as values. -/
def natSol (a b c d : ℕ) : Sol := ⟨(a : ℚ), (b : ℚ), (c : ℚ), (d : ℚ)⟩

/-- The assignment is a non-negative integer point (the variable domain of
cell 6: `lowBound=0, cat=Integer`). -/
def isNatSol (s : Sol) : Prop :=
  (∃ n : ℕ, s.x1 = (n : ℚ)) ∧ (∃ n : ℕ, s.x2 = (n : ℚ)) ∧
  (∃ n : ℕ, s.x3 = (n : ℚ)) ∧ (∃ n : ℕ, s.x4 = (n : ℚ))

/-- The five constraints of cell 8, exactly as written there:
`x_1*constraints[0][0][0] + x_2*constraints[0][0][1] <= 80`, and so on, plus
the cloth-supply constraint `4*(x_1+x_2+x_3+x_4) <= 120`. -/
def satisfies (cs : List (List (List ℤ))) (caps : Caps) (s : Sol) : Prop :=
  s.x1 * (coeffAt cs 0 0 0 : ℚ) + s.x2 * (coeffAt cs 0 0 1 : ℚ) ≤ (caps.c1 : ℚ) ∧
  s.x1 * (coeffAt cs 1 0 0 : ℚ) + s.x2 * (coeffAt cs 1 0 1 : ℚ) ≤ (caps.c2 : ℚ) ∧
  s.x3 * (coeffAt cs 0 1 0 : ℚ) + s.x4 * (coeffAt cs 0 1 1 : ℚ) ≤ (caps.c3 : ℚ) ∧
  s.x3 * (coeffAt cs 1 1 0 : ℚ) + s.x4 * (coeffAt cs 1 1 1 : ℚ) ≤ (caps.c4 : ℚ) ∧
  4 * (s.x1 + s.x2 + s.x3 + s.x4) ≤ (caps.cloth : ℚ)

instance (cs : List (List (List ℤ))) (caps : Caps) (s : Sol) :
    Decidable (satisfies cs caps s) := by
  unfold satisfies; infer_instance

/-- The objective of cell 7: `10*x_1 + 15*x_2 + 10*x_3 + 15*x_4`. -/
def profit (s : Sol) : ℚ := 10 * s.x1 + 15 * s.x2 + 10 * s.x3 + 15 * s.x4

/-! ## The example scenario (the data the seeded run produced) -/

/-- The eight integers the seeded run of cell 3 drew, in draw order:
Beşiktaş Cutting T-shirts/Jeans, Beşiktaş Sewing T-shirts/Jeans, then the
same four for Davutpaşa. -/
def scenarioD : Fin 8 → ℤ := ![10, 4, 9, 10, 2, 7, 7, 8]

/-- The nested `constraints` list of the seeded run. -/
def scenarioCs : List (List (List ℤ)) := extractConstraints (productionHours scenarioD)

/-- The solution the notebook reports: `x1=0, x2=6, x3=1, x4=8`. -/
def scenarioSol : Sol := natSol 0 6 1 8

lemma scenarioCs_eq : scenarioCs = [[[10, 4], [2, 7]], [[9, 10], [7, 8]]] := by
  decide

/-- Over the scenario coefficients the five model constraints are exactly
these five natural-number inequalities. -/
lemma satScenario_iff (a b c d : ℕ) :
    satisfies scenarioCs defaultCaps (natSol a b c d) ↔
      (a * 10 + b * 4 ≤ 80 ∧ a * 9 + b * 10 ≤ 60 ∧ c * 2 + d * 7 ≤ 60 ∧
       c * 7 + d * 8 ≤ 75 ∧ 4 * (a + b + c + d) ≤ 120) := by
  rw [scenarioCs_eq]
  unfold satisfies natSol coeffAt defaultCaps
  simp only [List.getD]
  norm_num
  constructor
  · rintro ⟨h1, h2, h3, h4, h5⟩
    exact ⟨by exact_mod_cast h1, by exact_mod_cast h2, by exact_mod_cast h3,
           by exact_mod_cast h4, by exact_mod_cast h5⟩
  · rintro ⟨h1, h2, h3, h4, h5⟩
    exact ⟨by exact_mod_cast h1, by exact_mod_cast h2, by exact_mod_cast h3,
           by exact_mod_cast h4, by exact_mod_cast h5⟩

set_option maxHeartbeats 2000000 in
/-- Brute force over the box the constraints bound: no feasible integer
point beats profit 220. -/
lemma scenario_bruteforce :
    ∀ a < 7, ∀ b < 7, ∀ c < 11, ∀ d < 10,
      a * 10 + b * 4 ≤ 80 → a * 9 + b * 10 ≤ 60 → c * 2 + d * 7 ≤ 60 →
      c * 7 + d * 8 ≤ 75 → 4 * (a + b + c + d) ≤ 120 →
      10 * a + 15 * b + 10 * c + 15 * d ≤ 220 := by
  have hAll : ((List.range 7).all fun a => (List.range 7).all fun b =>
      (List.range 11).all fun c => (List.range 10).all fun d =>
        decide (a * 10 + b * 4 ≤ 80 ∧ a * 9 + b * 10 ≤ 60 ∧ c * 2 + d * 7 ≤ 60 ∧
          c * 7 + d * 8 ≤ 75 ∧ 4 * (a + b + c + d) ≤ 120 →
          10 * a + 15 * b + 10 * c + 15 * d ≤ 220)) = true := by decide
  intro a ha b hb c hc d hd h1 h2 h3 h4 h5
  have h0 := List.all_eq_true.mp hAll a (List.mem_range.mpr ha)
  have hb0 := List.all_eq_true.mp h0 b (List.mem_range.mpr hb)
  have hc0 := List.all_eq_true.mp hb0 c (List.mem_range.mpr hc)
  have hd0 := List.all_eq_true.mp hc0 d (List.mem_range.mpr hd)
  exact of_decide_eq_true hd0 ⟨h1, h2, h3, h4, h5⟩

/-- The reported point satisfies all five scenario constraints. -/
lemma scenarioSol_satisfies : satisfies scenarioCs defaultCaps scenarioSol :=
  (satScenario_iff 0 6 1 8).mpr (by decide)

/-- No feasible non-negative integer point of the scenario model has profit
above 220. -/
lemma scenario_optimal :
    ∀ a b c d : ℕ, satisfies scenarioCs defaultCaps (natSol a b c d) →
      profit (natSol a b c d) ≤ 220 := by
  intro a b c d h
  rw [satScenario_iff] at h
  obtain ⟨h1, h2, h3, h4, h5⟩ := h
  have ha : a < 7 := by omega
  have hb : b < 7 := by omega
  have hc : c < 11 := by omega
  have hd : d < 10 := by omega
  have hnat : 10 * a + 15 * b + 10 * c + 15 * d ≤ 220 :=
    scenario_bruteforce a ha b hb c hc d hd h1 h2 h3 h4 h5
  unfold profit natSol
  push_cast
  exact_mod_cast hnat

/-- The profit at the reported point is 220. -/
lemma scenarioSol_profit : profit scenarioSol = 220 := by
  unfold profit scenarioSol natSol
  norm_num

/-- C1: for the scenario table (Cutting `[[10,4],[2,7]]`, Sewing
`[[9,10],[7,8]]`, site × product), capacities 80, 60, 60, 75, cloth supply
120 with factor 4, and prices 10, 15, 10, 15, the point
`x1=0, x2=6, x3=1, x4=8` satisfies all five constraints over non-negative
integers, its objective value is 220, and no non-negative integer point
satisfying all five constraints has strictly higher objective value. -/
theorem claim1_scenario_optimum :
    satisfies scenarioCs defaultCaps scenarioSol ∧ profit scenarioSol = 220 ∧
      ∀ a b c d : ℕ, satisfies scenarioCs defaultCaps (natSol a b c d) →
        profit (natSol a b c d) ≤ 220 :=
  ⟨scenarioSol_satisfies, scenarioSol_profit, scenario_optimal⟩

/-- Witness for C1: the optimality bound applied at the feasible point
`(0, 6, 1, 8)` itself. -/
theorem claim1_scenario_optimum_witness : profit (natSol 0 6 1 8) ≤ 220 :=
  claim1_scenario_optimum.2.2 0 6 1 8 scenarioSol_satisfies

/-! ## The solver adapter (cell 9)

The external solver (pulp's `COIN_CMD` wrapper around CBC) is not part of
the repository; only the call `model.solve(...)` is.  Per the specification
it is treated as a black box with exact mixed-integer-linear-programming
semantics over the four non-negative integer variables. -/

/-- Modelled from the spec: the external CBC solver invoked by
`model.solve(solver=pulp.COIN_CMD(msg=0))` in cell 9, whose code is absent
from the source tree.  §4.3/§6 specify it as an exact MILP oracle: on
success it returns a feasible non-negative integer assignment maximizing
the objective among all such assignments; on failure no assignment exists. -/
def SolverCorrect (cs : List (List (List ℤ))) (caps : Caps) : Option Sol → Prop
  | some s => isNatSol s ∧ satisfies cs caps s ∧
      ∀ t, isNatSol t → satisfies cs caps t → profit t ≤ profit s
  | none => ∀ t, isNatSol t → ¬ satisfies cs caps t

/-! ## The reporter (cell 10)

The print block is modelled as a list of output lines; a line is either a
bare heading and message line or a `label: value` line with a numeric
value.  The success branch never reads the coefficient table: every figure
it prints is recomputed from the solved variable values alone. -/

/-- One printed output line. -/
inductive Line where
  | plain : String → Line
  | labeled : String → ℚ → Line
deriving DecidableEq

/-- Whether a line is a labeled numeric line. -/
def Line.isNumeric : Line → Bool
  | .labeled _ _ => true
  | .plain _ => false

/-- The print block of cell 10: on a feasible status the quantity,
utilization, cloth and profit lines in source order (the profit line prints
the objective value, which is the `profit` expression at the solved
point); otherwise the single failure line. -/
def report : Option Sol → List Line
  | some s =>
      [Line.plain "Production Quantities:",
       Line.labeled "Jeans in Beşiktaş" s.x2,
       Line.labeled "Jeans in Davutpaşa" s.x4,
       Line.labeled "T-shirts in Beşiktaş" s.x1,
       Line.labeled "T-shirts in Davutpaşa" s.x3,
       Line.plain "Total amount used:",
       Line.labeled "Cutting in Beşiktaş" (s.x1 + s.x2),
       Line.labeled "Cutting in Davutpaşa" (s.x3 + s.x4),
       Line.labeled "Sewing in Beşiktaş" (s.x1 + s.x2),
       Line.labeled "Sewing in Davutpaşa" (s.x3 + s.x4),
       Line.labeled "Cloths in Beşiktaş" (4 * (s.x1 + s.x2)),
       Line.labeled "Cloths in Davutpaşa" (4 * (s.x3 + s.x4)),
       Line.labeled "Total profit" (profit s)]
  | none => [Line.plain "No feasible solution found"]

/-- C2 (amended): on success the output after the coefficient table has
two heading lines and exactly eleven labeled numeric lines — four
production quantities, four utilization figures, two cloth-consumption
figures and one profit — and on failure it is the single line
"No feasible solution found". -/
theorem claim2_output_shape :
    (∀ s : Sol, (report (some s)).countP Line.isNumeric = 11 ∧
      (report (some s)).length = 13) ∧
    report none = [Line.plain "No feasible solution found"] :=
  ⟨fun _ => ⟨rfl, rfl⟩, rfl⟩

/-- Counterexample for C2 as stated: at the scenario solution the success
output contains eleven labeled numeric lines, not nine — the claim misses
the two cloth-consumption lines the reporter also prints. -/
theorem claim2_counterexample :
    (report (some scenarioSol)).countP Line.isNumeric ≠ 9 := by
  decide

/-- C9: the reported per-site Cutting and Sewing utilization figures are
the unweighted sums `x1+x2` (Beşiktaş) and `x3+x4` (Davutpaşa) — both
figures of a site coincide with that site's total production quantity, and
the reporter (`report` takes no coefficient table at all) never weights
them by the per-unit processing-time coefficients. -/
theorem claim9_utilization_unweighted :
    ∀ s : Sol,
      (report (some s)).getD 6 (Line.plain "") =
          Line.labeled "Cutting in Beşiktaş" (s.x1 + s.x2) ∧
      (report (some s)).getD 8 (Line.plain "") =
          Line.labeled "Sewing in Beşiktaş" (s.x1 + s.x2) ∧
      (report (some s)).getD 7 (Line.plain "") =
          Line.labeled "Cutting in Davutpaşa" (s.x3 + s.x4) ∧
      (report (some s)).getD 9 (Line.plain "") =
          Line.labeled "Sewing in Davutpaşa" (s.x3 + s.x4) :=
  fun _ => ⟨rfl, rfl, rfl, rfl⟩

/-- A model whose cloth supply is negative admits no non-negative integer
point at all. -/
lemma negCloth_infeasible :
    ∀ t, isNatSol t → ¬ satisfies scenarioCs ⟨0, 0, 0, 0, -1⟩ t := by
  rintro t ⟨⟨n1, e1⟩, ⟨n2, e2⟩, ⟨n3, e3⟩, ⟨n4, e4⟩⟩ h
  have h5 := h.2.2.2.2
  rw [e1, e2, e3, e4] at h5
  have : (0 : ℚ) ≤ ((n1 : ℚ) + n2 + n3 + n4) := by positivity
  norm_num at h5
  linarith

/-- C4 (amended): whenever the constants make the five constraints
unsatisfiable over non-negative integers, the solver reports failure and
the reporter's output is exactly the single failure line — no quantity,
utilization or profit lines.  (Setting every capacity to 0 does not
produce this situation; a negative cloth supply does.) -/
theorem claim4_infeasible_report :
    ∀ (cs : List (List (List ℤ))) (caps : Caps) (sol : Option Sol),
      SolverCorrect cs caps sol →
      (∀ t, isNatSol t → ¬ satisfies cs caps t) →
      report sol = [Line.plain "No feasible solution found"] := by
  intro cs caps sol hs hinf
  match sol with
  | none => rfl
  | some s => exact absurd hs.2.1 (hinf s hs.1)

/-- Witness for C4: the scenario coefficients with cloth supply −1 are
infeasible, and the reporter indeed emits only the failure line. -/
theorem claim4_infeasible_report_witness :
    report (none : Option Sol) = [Line.plain "No feasible solution found"] :=
  claim4_infeasible_report scenarioCs ⟨0, 0, 0, 0, -1⟩ none
    negCloth_infeasible negCloth_infeasible

/-- Counterexample for C4 as stated: the claim's example — every capacity
set to 0 with the positive scenario coefficients — does not make the model
infeasible: the all-zero production plan still satisfies all five
constraints, so the solver returns it and the reporter prints the success
lines. -/
theorem claim4_counterexample :
    satisfies scenarioCs ⟨0, 0, 0, 0, 0⟩ (natSol 0 0 0 0) := by
  rw [scenarioCs_eq]
  unfold satisfies natSol coeffAt
  norm_num

/-! ## The solved scenario and solvability of every instance -/

/-- The reported scenario point together with its optimality: it is what a
correct solver must return (up to profit). -/
lemma scenario_solver_correct :
    SolverCorrect scenarioCs defaultCaps (some scenarioSol) := by
  refine ⟨⟨⟨0, rfl⟩, ⟨6, rfl⟩, ⟨1, rfl⟩, ⟨8, rfl⟩⟩, scenarioSol_satisfies, ?_⟩
  rintro ⟨tx1, tx2, tx3, tx4⟩ ⟨⟨n1, e1⟩, ⟨n2, e2⟩, ⟨n3, e3⟩, ⟨n4, e4⟩⟩ hsat
  dsimp at e1 e2 e3 e4
  subst e1; subst e2; subst e3; subst e4
  rw [scenarioSol_profit]
  exact scenario_optimal n1 n2 n3 n4 hsat

/-- Producing nothing always satisfies the default-capacity model, whatever
the coefficients are. -/
lemma zero_feasible (cs : List (List (List ℤ))) :
    satisfies cs defaultCaps (natSol 0 0 0 0) := by
  unfold satisfies natSol defaultCaps
  norm_num

/-- The default-capacity model always has an optimal non-negative integer
solution: the cloth constraint bounds the search space, so a maximum over
the finite candidate box exists.  This shows the solver contract
`SolverCorrect` is satisfiable for every coefficient table. -/
lemma exists_optimal (cs : List (List (List ℤ))) :
    ∃ sol : Option Sol, SolverCorrect cs defaultCaps sol := by
  classical
  set S : Finset (ℕ × ℕ × ℕ × ℕ) :=
    ((Finset.range 31) ×ˢ (Finset.range 31) ×ˢ (Finset.range 31) ×ˢ (Finset.range 31)).filter
      (fun q => satisfies cs defaultCaps (natSol q.1 q.2.1 q.2.2.1 q.2.2.2)) with hS
  have hzero : (0, 0, 0, 0) ∈ S := by
    rw [hS, Finset.mem_filter]
    refine ⟨?_, zero_feasible cs⟩
    simp [Finset.mem_product]
  obtain ⟨⟨a, b, c, d⟩, hmem, hmax⟩ :=
    S.exists_max_image (fun q => profit (natSol q.1 q.2.1 q.2.2.1 q.2.2.2)) ⟨_, hzero⟩
  refine ⟨some (natSol a b c d), ⟨⟨a, rfl⟩, ⟨b, rfl⟩, ⟨c, rfl⟩, ⟨d, rfl⟩⟩,
    (Finset.mem_filter.mp hmem).2, ?_⟩
  rintro ⟨tx1, tx2, tx3, tx4⟩ ⟨⟨n1, e1⟩, ⟨n2, e2⟩, ⟨n3, e3⟩, ⟨n4, e4⟩⟩ hsat
  dsimp at e1 e2 e3 e4
  subst e1; subst e2; subst e3; subst e4
  have h5 := hsat.2.2.2.2
  unfold defaultCaps at h5
  push_cast at h5
  have hsum : (n1 : ℚ) + n2 + n3 + n4 ≤ 30 := by linarith
  have hsumn : n1 + n2 + n3 + n4 ≤ 30 := by exact_mod_cast hsum
  have hmemt : (n1, n2, n3, n4) ∈ S := by
    rw [hS, Finset.mem_filter]
    refine ⟨?_, hsat⟩
    simp only [Finset.mem_product, Finset.mem_range]
    omega
  exact hmax (n1, n2, n3, n4) hmemt

/-- C5: under the solver contract, the reported profit line carries the
objective `10*x1 + 15*x2 + 10*x3 + 15*x4` evaluated at the solved point,
and no other non-negative integer point satisfying all five constraints
has a strictly higher objective value; moreover, an optimal solution
always exists (the cloth constraint makes the candidate space a finite
box, settling optimality by enumeration). -/
theorem claim5_profit_and_optimality :
    ∀ d : Fin 8 → ℤ, (∀ i, 1 ≤ d i) →
      (∃ sol, SolverCorrect (extractConstraints (productionHours d)) defaultCaps sol) ∧
      ∀ s : Sol,
        SolverCorrect (extractConstraints (productionHours d)) defaultCaps (some s) →
        ((report (some s)).getD 12 (Line.plain "") =
            Line.labeled "Total profit" (10 * s.x1 + 15 * s.x2 + 10 * s.x3 + 15 * s.x4) ∧
          ∀ t, isNatSol t →
            satisfies (extractConstraints (productionHours d)) defaultCaps t →
            profit t ≤ profit s) := by
  intro d _
  refine ⟨exists_optimal _, ?_⟩
  intro s hs
  exact ⟨rfl, hs.2.2⟩

/-- Witness for C5: the scenario table's coefficients are all at least 1,
and the solved scenario point realizes the contract. -/
theorem claim5_profit_and_optimality_witness :
    (∃ sol, SolverCorrect scenarioCs defaultCaps sol) ∧
    ((report (some scenarioSol)).getD 12 (Line.plain "") =
        Line.labeled "Total profit"
          (10 * scenarioSol.x1 + 15 * scenarioSol.x2 +
            10 * scenarioSol.x3 + 15 * scenarioSol.x4) ∧
      ∀ t, isNatSol t → satisfies scenarioCs defaultCaps t →
        profit t ≤ profit scenarioSol) := by
  have h := claim5_profit_and_optimality scenarioD (by decide)
  exact ⟨h.1, h.2 scenarioSol scenario_solver_correct⟩

/-- C6: any solution a correct solver returns satisfies, at its solved
values, the four process/site capacity constraints with right-hand sides
80, 60, 60, 75 and the raw-material constraint `4*(x1+x2+x3+x4) ≤ 120`. -/
theorem claim6_constraints_hold :
    ∀ (cs : List (List (List ℤ))) (s : Sol),
      SolverCorrect cs defaultCaps (some s) →
      (s.x1 * (coeffAt cs 0 0 0 : ℚ) + s.x2 * (coeffAt cs 0 0 1 : ℚ) ≤ 80 ∧
        s.x1 * (coeffAt cs 1 0 0 : ℚ) + s.x2 * (coeffAt cs 1 0 1 : ℚ) ≤ 60 ∧
        s.x3 * (coeffAt cs 0 1 0 : ℚ) + s.x4 * (coeffAt cs 0 1 1 : ℚ) ≤ 60 ∧
        s.x3 * (coeffAt cs 1 1 0 : ℚ) + s.x4 * (coeffAt cs 1 1 1 : ℚ) ≤ 75 ∧
        4 * (s.x1 + s.x2 + s.x3 + s.x4) ≤ 120) := by
  intro cs s hs
  have h := hs.2.1
  unfold satisfies defaultCaps at h
  push_cast at h
  exact h

/-- Witness for C6: the five constraints hold at the solved scenario
point. -/
theorem claim6_constraints_hold_witness :
    scenarioSol.x1 * (coeffAt scenarioCs 0 0 0 : ℚ) +
        scenarioSol.x2 * (coeffAt scenarioCs 0 0 1 : ℚ) ≤ 80 ∧
      scenarioSol.x1 * (coeffAt scenarioCs 1 0 0 : ℚ) +
        scenarioSol.x2 * (coeffAt scenarioCs 1 0 1 : ℚ) ≤ 60 ∧
      scenarioSol.x3 * (coeffAt scenarioCs 0 1 0 : ℚ) +
        scenarioSol.x4 * (coeffAt scenarioCs 0 1 1 : ℚ) ≤ 60 ∧
      scenarioSol.x3 * (coeffAt scenarioCs 1 1 0 : ℚ) +
        scenarioSol.x4 * (coeffAt scenarioCs 1 1 1 : ℚ) ≤ 75 ∧
      4 * (scenarioSol.x1 + scenarioSol.x2 + scenarioSol.x3 + scenarioSol.x4) ≤ 120 :=
  claim6_constraints_hold scenarioCs scenarioSol scenario_solver_correct

/-- C7: the four declared decision variables all have lower bound 0 and
integer category, and any solution a correct solver returns assigns each
of them a non-negative integer value. -/
theorem claim7_integrality :
    (∀ v ∈ decisionVars, v.lowBound = 0 ∧ v.cat = "Integer") ∧
    ∀ (cs : List (List (List ℤ))) (caps : Caps) (s : Sol),
      SolverCorrect cs caps (some s) →
      ((∃ n : ℕ, s.x1 = (n : ℚ)) ∧ (∃ n : ℕ, s.x2 = (n : ℚ)) ∧
        (∃ n : ℕ, s.x3 = (n : ℚ)) ∧ (∃ n : ℕ, s.x4 = (n : ℚ))) := by
  constructor
  · intro v hv
    fin_cases hv <;> exact ⟨rfl, rfl⟩
  · intro cs caps s hs
    exact hs.1

/-- Witness for C7: variable `x_1` is declared with lower bound 0 and
integer category, and the solved scenario values are non-negative
integers. -/
theorem claim7_integrality_witness :
    ((⟨"x_1", 0, "Integer"⟩ : LpVar).lowBound = 0 ∧
      (⟨"x_1", 0, "Integer"⟩ : LpVar).cat = "Integer") ∧
    ((∃ n : ℕ, scenarioSol.x1 = (n : ℚ)) ∧ (∃ n : ℕ, scenarioSol.x2 = (n : ℚ)) ∧
      (∃ n : ℕ, scenarioSol.x3 = (n : ℚ)) ∧ (∃ n : ℕ, scenarioSol.x4 = (n : ℚ))) :=
  ⟨claim7_integrality.1 ⟨"x_1", 0, "Integer"⟩ (List.mem_cons_self _ _),
    claim7_integrality.2 scenarioCs defaultCaps scenarioSol scenario_solver_correct⟩

/-! ## Faithfulness of the extraction loop (C10) -/

/-- C10: the extraction loop of cell 4 is a faithful reshape.  For every
2×4 production-hours table (columns Beşiktaş T-shirts, Beşiktaş Jeans,
Davutpaşa T-shirts, Davutpaşa Jeans) the nested list it builds pairs each
row into per-site pairs, so `constraints[i][j][k]` is the entry for
process `i`, site `j`, product `k`; consequently the five model
constraints of cell 8 use exactly the generated table entries under the
process × site × product indexing. -/
theorem claim10_extraction_faithful :
    (∀ tbl : Fin 2 → Fin 4 → ℤ,
      extractConstraints tbl =
        [[[tbl 0 0, tbl 0 1], [tbl 0 2, tbl 0 3]],
          [[tbl 1 0, tbl 1 1], [tbl 1 2, tbl 1 3]]]) ∧
    (∀ (d : Fin 8 → ℤ) (caps : Caps) (s : Sol),
      satisfies (extractConstraints (productionHours d)) caps s ↔
        (s.x1 * (d 0 : ℚ) + s.x2 * (d 1 : ℚ) ≤ (caps.c1 : ℚ) ∧
          s.x1 * (d 2 : ℚ) + s.x2 * (d 3 : ℚ) ≤ (caps.c2 : ℚ) ∧
          s.x3 * (d 4 : ℚ) + s.x4 * (d 5 : ℚ) ≤ (caps.c3 : ℚ) ∧
          s.x3 * (d 6 : ℚ) + s.x4 * (d 7 : ℚ) ≤ (caps.c4 : ℚ) ∧
          4 * (s.x1 + s.x2 + s.x3 + s.x4) ≤ (caps.cloth : ℚ))) :=
  ⟨fun _ => rfl, fun _ _ _ => Iff.rfl⟩

/-! ## The data generator (cells 2 and 3)

`np.random.seed(21506050)` seeds numpy's legacy MT19937 generator and the
eight coefficients are `np.round(np.random.uniform(low=1, high=10, size=4))`
twice.  numpy's generator itself is external library code, so it is
modelled from the specification (a deterministic pseudo-random source that
is a pure function of the seed); the model follows the published MT19937
algorithm numpy documents, with its arithmetic carried out exactly over ℚ
instead of in 64-bit floating point.  `np.round` rounds half to even. -/

/-- `2^32`, the word modulus of the 32-bit generator state. -/
def U32 : ℕ := 4294967296

/-- `2^53`: numpy's `random_sample` returns `k / 2^53` for an integer
`0 ≤ k < 2^53` assembled from two generator words, each such `k` equally
likely. -/
def N53 : ℕ := 9007199254740992

/-- Modelled from the spec: the seeded initialization of the MT19937 state
(624 words, built from the seed by the standard Knuth-LCG recurrence),
newest word first. -/
def mtStateRev (seed : ℕ) : List ℕ :=
  (List.range 623).foldl
    (fun st i =>
      ((1812433253 * (st.headD 0 ^^^ (st.headD 0 >>> 30)) + (i + 1)) % U32) :: st)
    [seed % U32]

/-- The freshly seeded MT19937 state in index order. -/
def mtState (seed : ℕ) : List ℕ := (mtStateRev seed).reverse

/-- Modelled from the spec: word `i` of the first MT19937 twist of a fresh
state (valid for `i < 227`, before any wraparound; the run consumes only
the first 16 words). -/
def twistWord (mt : List ℕ) (i : ℕ) : ℕ :=
  let y := (mt.getD i 0 &&& 0x80000000) ||| (mt.getD (i + 1) 0 &&& 0x7FFFFFFF)
  (mt.getD (i + 397) 0) ^^^ (y >>> 1) ^^^ (if y % 2 = 1 then 0x9908B0DF else 0)

/-- Modelled from the spec: the MT19937 tempering of one raw state word. -/
def temperWord (w : ℕ) : ℕ :=
  let y0 := w % U32
  let y1 := y0 ^^^ (y0 >>> 11)
  let y2 := y1 ^^^ ((y1 <<< 7) &&& 0x9D2C5680)
  let y3 := y2 ^^^ ((y2 <<< 15) &&& 0xEFC60000)
  (y3 ^^^ (y3 >>> 18)) % U32

/-- The `i`-th 32-bit output of the seeded generator. -/
def mtOutput (seed i : ℕ) : ℕ := temperWord (twistWord (mtState seed) i)

/-- Modelled from the spec: numpy's `random_sample` — two generator words
give 53 uniform bits, yielding `k / 2^53 ∈ [0, 1)`. -/
def randomSample (seed i : ℕ) : ℚ :=
  ((((mtOutput seed (2 * i)) >>> 5) * 67108864 + ((mtOutput seed (2 * i + 1)) >>> 6) : ℕ) : ℚ) /
    (N53 : ℚ)

/-- `np.round`: round to the nearest integer, ties to the even integer. -/
def roundHalfEven (q : ℚ) : ℤ :=
  if q - ⌊q⌋ < 1 / 2 then ⌊q⌋
  else if 1 / 2 < q - ⌊q⌋ then ⌊q⌋ + 1
  else if Even ⌊q⌋ then ⌊q⌋ else ⌊q⌋ + 1

/-- One drawn coefficient: `np.round(np.random.uniform(low=1, high=10))`
applied to a unit sample, i.e. the half-even rounding of `1 + 9*u`. -/
def genEntry (u : ℚ) : ℤ := roundHalfEven (1 + 9 * u)

/-- The eight coefficients cell 3 draws from the seed, in draw order. -/
def generateTable (seed : ℕ) : Fin 8 → ℤ := fun i => genEntry (randomSample seed (i : ℕ))

/-- C8: the generated coefficient table is a deterministic function of the
seed alone — two runs from equal seeds produce identical tables. -/
theorem claim8_determinism :
    ∀ s1 s2 : ℕ, s1 = s2 → ∀ i : Fin 8, generateTable s1 i = generateTable s2 i := by
  intro s1 s2 h i
  rw [h]

/-- Witness for C8: two runs from the notebook's seed agree. -/
theorem claim8_determinism_witness :
    generateTable 21506050 0 = generateTable 21506050 0 :=
  claim8_determinism 21506050 21506050 rfl 0

/-! ## Properties of the half-even rounding -/

lemma rhe_floor_le (q : ℚ) : ⌊q⌋ ≤ roundHalfEven q := by
  unfold roundHalfEven
  split_ifs <;> omega

lemma rhe_le_floor_add_one (q : ℚ) : roundHalfEven q ≤ ⌊q⌋ + 1 := by
  unfold roundHalfEven
  split_ifs <;> omega

lemma rhe_of_Ico (a : ℤ) (q : ℚ) (h1 : (a : ℚ) ≤ q) (h2 : q < (a : ℚ) + 1 / 2) :
    roundHalfEven q = a := by
  have hf : ⌊q⌋ = a := Int.floor_eq_iff.mpr ⟨h1, by linarith⟩
  unfold roundHalfEven
  rw [hf, if_pos (show q - (a : ℚ) < 1 / 2 by linarith)]

lemma rhe_le_of_lt_half (a : ℤ) (q : ℚ) (h : q < (a : ℚ) + 1 / 2) :
    roundHalfEven q ≤ a := by
  have hfl : ⌊q⌋ ≤ a := by
    have h2 : ⌊q⌋ < a + 1 := Int.floor_lt.mpr (by push_cast; linarith)
    omega
  by_cases hfa : ⌊q⌋ = a
  · unfold roundHalfEven
    rw [hfa, if_pos (show q - (a : ℚ) < 1 / 2 by linarith)]
  · have h3 := rhe_le_floor_add_one q
    omega

lemma rhe_ge_of_gt_half (a : ℤ) (q : ℚ) (h : (a : ℚ) + 1 / 2 < q) :
    a + 1 ≤ roundHalfEven q := by
  have hfl : a ≤ ⌊q⌋ := Int.le_floor.mpr (by linarith)
  by_cases hfa : ⌊q⌋ = a
  · unfold roundHalfEven
    rw [hfa, if_neg (not_lt.mpr (show 1 / 2 ≤ q - (a : ℚ) by linarith)),
      if_pos (show 1 / 2 < q - (a : ℚ) by linarith)]
  · have h3 := rhe_floor_le q
    omega

lemma rhe_le_of_le_half_even (a : ℤ) (he : Even a) (q : ℚ) (h : q ≤ (a : ℚ) + 1 / 2) :
    roundHalfEven q ≤ a := by
  rcases lt_or_eq_of_le h with hlt | heq
  · exact rhe_le_of_lt_half a q hlt
  · subst heq
    have hf : ⌊(a : ℚ) + 1 / 2⌋ = a := Int.floor_eq_iff.mpr ⟨by linarith, by linarith⟩
    unfold roundHalfEven
    rw [hf, if_neg (not_lt.mpr (show 1 / 2 ≤ (a : ℚ) + 1 / 2 - a by linarith)),
      if_neg (not_lt.mpr (show (a : ℚ) + 1 / 2 - a ≤ 1 / 2 by linarith)), if_pos he]

lemma rhe_ge_of_ge_half_odd (a : ℤ) (ho : Odd a) (q : ℚ) (h : (a : ℚ) + 1 / 2 ≤ q) :
    a + 1 ≤ roundHalfEven q := by
  rcases eq_or_lt_of_le h with heq | hlt
  · have hf : ⌊q⌋ = a := by
      rw [← heq]
      exact Int.floor_eq_iff.mpr ⟨by linarith, by linarith⟩
    unfold roundHalfEven
    rw [hf, ← heq,
      if_neg (not_lt.mpr (show 1 / 2 ≤ (a : ℚ) + 1 / 2 - a by linarith)),
      if_neg (not_lt.mpr (show (a : ℚ) + 1 / 2 - a ≤ 1 / 2 by linarith)),
      if_neg (Int.odd_iff_not_even.mp ho)]
  · exact rhe_ge_of_gt_half a q hlt

/-- Every unit draw rounds into `[1, 10]`: the generated coefficients are
positive integers between 1 and 10. -/
lemma genEntry_bounds (u : ℚ) (h0 : 0 ≤ u) (h1 : u < 1) :
    1 ≤ genEntry u ∧ genEntry u ≤ 10 := by
  unfold genEntry
  constructor
  · have hfl : (1 : ℤ) ≤ ⌊1 + 9 * u⌋ := Int.le_floor.mpr (by push_cast; linarith)
    have h2 := rhe_floor_le (1 + 9 * u)
    omega
  · have hfl : ⌊1 + 9 * u⌋ < 10 := Int.floor_lt.mpr (by push_cast; linarith)
    have h2 := rhe_le_floor_add_one (1 + 9 * u)
    omega

/-! ## The induced distribution over the sampler's 2^53-point space -/

/-- How many of the `2^53` equally likely sampler outputs round to the
value `v`. -/
def hitCount (v : ℤ) : ℕ :=
  ((Finset.range N53).filter fun (k : ℕ) => genEntry ((k : ℚ) / (N53 : ℚ)) = v).card

lemma genEntry_grid_one (k : ℕ) :
    genEntry ((k : ℚ) / (N53 : ℚ)) = 1 ↔ 18 * k < N53 := by
  have hN : (0 : ℚ) < (N53 : ℚ) := by norm_num [N53]
  constructor
  · intro h
    by_contra hc
    push_neg at hc
    have hcq : ((N53 : ℕ) : ℚ) ≤ ((18 * k : ℕ) : ℚ) := by exact_mod_cast hc
    push_cast at hcq
    have hq : ((1 : ℤ) : ℚ) + 1 / 2 ≤ 1 + 9 * ((k : ℚ) / N53) := by
      have h9 : (1 : ℚ) / 2 ≤ 9 * (k : ℚ) / N53 := by
        rw [le_div_iff hN]
        linarith
      rw [mul_div_assoc] at h9
      push_cast
      linarith
    have h2 := rhe_ge_of_ge_half_odd 1 (by decide) _ hq
    unfold genEntry at h
    omega
  · intro h
    have hq : ((18 * k : ℕ) : ℚ) < ((N53 : ℕ) : ℚ) := by exact_mod_cast h
    push_cast at hq
    have h9 : 9 * (k : ℚ) / N53 < 1 / 2 := by
      rw [div_lt_iff hN]
      linarith
    rw [mul_div_assoc] at h9
    have hge : (0 : ℚ) ≤ (k : ℚ) / N53 := by positivity
    exact rhe_of_Ico 1 _ (by push_cast; linarith) (by push_cast; linarith)

lemma genEntry_grid_two (k : ℕ) :
    genEntry ((k : ℚ) / (N53 : ℚ)) = 2 ↔ (N53 ≤ 18 * k ∧ 18 * k ≤ 3 * N53) := by
  have hN : (0 : ℚ) < (N53 : ℚ) := by norm_num [N53]
  constructor
  · intro h
    by_contra hc
    push_neg at hc
    rcases Nat.lt_or_ge (18 * k) N53 with hlo | hhi
    · have h1 := (genEntry_grid_one k).mpr hlo
      omega
    · have h3 : 3 * N53 < 18 * k := hc hhi
      have hcq : ((3 * N53 : ℕ) : ℚ) < ((18 * k : ℕ) : ℚ) := by exact_mod_cast h3
      push_cast at hcq
      have h9 : (3 : ℚ) / 2 < 9 * (k : ℚ) / N53 := by
        rw [lt_div_iff hN]
        linarith
      rw [mul_div_assoc] at h9
      have hq : ((2 : ℤ) : ℚ) + 1 / 2 < 1 + 9 * ((k : ℚ) / N53) := by
        push_cast
        linarith
      have h2 := rhe_ge_of_gt_half 2 _ hq
      unfold genEntry at h
      omega
  · rintro ⟨hlo, hhi⟩
    have hloq : ((N53 : ℕ) : ℚ) ≤ ((18 * k : ℕ) : ℚ) := by exact_mod_cast hlo
    have hhiq : ((18 * k : ℕ) : ℚ) ≤ ((3 * N53 : ℕ) : ℚ) := by exact_mod_cast hhi
    push_cast at hloq hhiq
    have h9lo : (1 : ℚ) / 2 ≤ 9 * (k : ℚ) / N53 := by
      rw [le_div_iff hN]
      linarith
    have h9hi : 9 * (k : ℚ) / N53 ≤ 3 / 2 := by
      rw [div_le_iff hN]
      linarith
    rw [mul_div_assoc] at h9lo h9hi
    have hge := rhe_ge_of_ge_half_odd 1 (by decide) (1 + 9 * ((k : ℚ) / N53))
      (by push_cast; linarith)
    have hle := rhe_le_of_le_half_even 2 (by decide) (1 + 9 * ((k : ℚ) / N53))
      (by push_cast; linarith)
    unfold genEntry
    omega

/-- Value 1 is hit by exactly `⌈2^53 / 18⌉` of the `2^53` sampler
outputs. -/
lemma hitCount_one : hitCount 1 = 500399958596722 := by
  unfold hitCount
  have h1 : ∀ k ∈ Finset.range N53,
      ((genEntry ((k : ℚ) / (N53 : ℚ)) = 1) ↔ k < 500399958596722) := by
    intro k _
    rw [genEntry_grid_one k]
    unfold N53
    omega
  rw [Finset.filter_congr h1]
  have h2 : (Finset.range N53).filter (fun k => k < 500399958596722) =
      Finset.range 500399958596722 := by
    ext x
    simp only [Finset.mem_filter, Finset.mem_range]
    unfold N53
    omega
  rw [h2, Finset.card_range]

/-- Value 2 is hit by exactly twice as many sampler outputs as value 1. -/
lemma hitCount_two : hitCount 2 = 1000799917193444 := by
  unfold hitCount
  have h1 : ∀ k ∈ Finset.range N53,
      ((genEntry ((k : ℚ) / (N53 : ℚ)) = 2) ↔
        (500399958596722 ≤ k ∧ k ≤ 1501199875790165)) := by
    intro k _
    rw [genEntry_grid_two k]
    unfold N53
    omega
  rw [Finset.filter_congr h1]
  have h2 : (Finset.range N53).filter
        (fun k => 500399958596722 ≤ k ∧ k ≤ 1501199875790165) =
      Finset.Icc 500399958596722 1501199875790165 := by
    ext x
    simp only [Finset.mem_filter, Finset.mem_range, Finset.mem_Icc]
    unfold N53
    omega
  rw [h2, Nat.card_Icc]

/-! ## Bounds on the sampler output -/

lemma temperWord_lt (w : ℕ) : temperWord w < U32 :=
  Nat.mod_lt _ (by norm_num [U32])

lemma randomSample_mem (seed i : ℕ) :
    0 ≤ randomSample seed i ∧ randomSample seed i < 1 := by
  unfold randomSample
  have ha : (mtOutput seed (2 * i)) >>> 5 < 134217728 := by
    have h := temperWord_lt (twistWord (mtState seed) (2 * i))
    unfold mtOutput
    rw [Nat.shiftRight_eq_div_pow]
    have h2 : temperWord (twistWord (mtState seed) (2 * i)) < 134217728 * 2 ^ 5 := by
      unfold U32 at h
      omega
    exact Nat.div_lt_of_lt_mul h2
  have hb : (mtOutput seed (2 * i + 1)) >>> 6 < 67108864 := by
    have h := temperWord_lt (twistWord (mtState seed) (2 * i + 1))
    unfold mtOutput
    rw [Nat.shiftRight_eq_div_pow]
    have h2 : temperWord (twistWord (mtState seed) (2 * i + 1)) < 67108864 * 2 ^ 6 := by
      unfold U32 at h
      omega
    exact Nat.div_lt_of_lt_mul h2
  have hnum : (mtOutput seed (2 * i)) >>> 5 * 67108864 + (mtOutput seed (2 * i + 1)) >>> 6 <
      N53 := by
    unfold N53
    omega
  constructor
  · positivity
  · rw [div_lt_one (by norm_num [N53] : (0 : ℚ) < (N53 : ℚ))]
    exact_mod_cast hnum

/-- C3 (amended): every generated coefficient, for every seed, is an
integer in `[1, 10]`, and the eight draws are reshaped into the 2×2×2
process × site × product table; but the ten values are not equally
likely — over the sampler's `2^53` equally likely outputs, the endpoint
value 1 is produced by 500399958596722 of them while the interior value 2
is produced by 1000799917193444, exactly twice as many, because
`np.round(np.random.uniform(1, 10))` gives the two endpoint integers only
half-length rounding intervals. -/
theorem claim3_generator_distribution :
    (∀ (seed : ℕ) (i : Fin 8),
      1 ≤ generateTable seed i ∧ generateTable seed i ≤ 10) ∧
    (∀ d : Fin 8 → ℤ,
      extractConstraints (productionHours d) =
        [[[d 0, d 1], [d 4, d 5]], [[d 2, d 3], [d 6, d 7]]]) ∧
    hitCount 1 = 500399958596722 ∧ hitCount 2 = 2 * hitCount 1 := by
  refine ⟨?_, fun _ => rfl, hitCount_one, ?_⟩
  · intro seed i
    obtain ⟨h0, h1⟩ := randomSample_mem seed (i : ℕ)
    exact genEntry_bounds _ h0 h1
  · rw [hitCount_one, hitCount_two]

/-- Counterexample for C3 as stated: the drawn values are not equally
likely — value 1 and value 2 are produced by different numbers of the
`2^53` equally likely sampler outputs. -/
theorem claim3_counterexample : hitCount 1 ≠ hitCount 2 := by
  rw [hitCount_one, hitCount_two]
  norm_num

/-! ## Validation: the seeded run reproduces the scenario table -/

lemma rhe_of_Ioo (a : ℤ) (q : ℚ) (h1 : (a : ℚ) - 1 / 2 < q) (h2 : q < (a : ℚ) + 1 / 2) :
    roundHalfEven q = a := by
  have hle := rhe_le_of_lt_half a q h2
  have hge := rhe_ge_of_gt_half (a - 1) q (by push_cast; linarith)
  omega

/-- A sampler output `k / 2^53` strictly inside the rounding interval of
`v` generates the coefficient `v`. -/
lemma genEntry_of_grid (k : ℕ) (v : ℤ) (hlo : (2 * v - 3) * (N53 : ℤ) < 18 * (k : ℤ))
    (hhi : 18 * (k : ℤ) < (2 * v - 1) * (N53 : ℤ)) :
    genEntry ((k : ℚ) / (N53 : ℚ)) = v := by
  have hN : (0 : ℚ) < (N53 : ℚ) := by norm_num [N53]
  have hloq : ((2 * v - 3 : ℤ) : ℚ) * (N53 : ℚ) < 18 * (k : ℚ) := by exact_mod_cast hlo
  have hhiq : 18 * (k : ℚ) < ((2 * v - 1 : ℤ) : ℚ) * (N53 : ℚ) := by exact_mod_cast hhi
  unfold genEntry
  apply rhe_of_Ioo
  · have h9 : ((v : ℚ) - 3 / 2) / 1 < 9 * (k : ℚ) / N53 := by
      rw [div_lt_div_iff (by norm_num) hN]
      push_cast at hloq
      linarith
    rw [mul_div_assoc] at h9
    simp only [div_one] at h9
    linarith
  · have h9 : 9 * (k : ℚ) / N53 < ((v : ℚ) - 1 / 2) / 1 := by
      rw [div_lt_div_iff hN (by norm_num)]
      push_cast at hhiq
      linarith
    rw [mul_div_assoc] at h9
    simp only [div_one] at h9
    linarith

set_option maxRecDepth 100000 in
/-- The eight 53-bit sampler integers the seeded generator produces for
the notebook's seed 21506050. -/
lemma seeded_raw_draws :
    (((mtOutput 21506050 0) >>> 5) * 67108864 + ((mtOutput 21506050 1) >>> 6) = 8639977855458535) ∧
    (((mtOutput 21506050 2) >>> 5) * 67108864 + ((mtOutput 21506050 3) >>> 6) = 3054588452843622) ∧
    (((mtOutput 21506050 4) >>> 5) * 67108864 + ((mtOutput 21506050 5) >>> 6) = 8102964025797166) ∧
    (((mtOutput 21506050 6) >>> 5) * 67108864 + ((mtOutput 21506050 7) >>> 6) = 8920075148696529) ∧
    (((mtOutput 21506050 8) >>> 5) * 67108864 + ((mtOutput 21506050 9) >>> 6) = 1160475923192254) ∧
    (((mtOutput 21506050 10) >>> 5) * 67108864 + ((mtOutput 21506050 11) >>> 6) = 5585475282824284) ∧
    (((mtOutput 21506050 12) >>> 5) * 67108864 + ((mtOutput 21506050 13) >>> 6) = 5911361946331721) ∧
    (((mtOutput 21506050 14) >>> 5) * 67108864 + ((mtOutput 21506050 15) >>> 6) = 7212971712005110) := by
  refine ⟨?_, ?_, ?_, ?_, ?_, ?_, ?_, ?_⟩ <;> decide

/-- The modelled generator run at the notebook's seed reproduces exactly
the coefficient table the notebook prints (the scenario table). -/
lemma seeded_run_table : ∀ i : Fin 8, generateTable 21506050 i = scenarioD i := by
  obtain ⟨h0, h1, h2, h3, h4, h5, h6, h7⟩ := seeded_raw_draws
  intro i
  unfold generateTable randomSample scenarioD
  fin_cases i
  · rw [show 2 * (0 : ℕ) = 0 from rfl, show 2 * (0 : ℕ) + 1 = 1 from rfl, h0]
    exact genEntry_of_grid _ 10 (by norm_num [N53]) (by norm_num [N53])
  · rw [show 2 * (1 : ℕ) = 2 from rfl, show 2 * (1 : ℕ) + 1 = 3 from rfl, h1]
    exact genEntry_of_grid _ 4 (by norm_num [N53]) (by norm_num [N53])
  · rw [show 2 * (2 : ℕ) = 4 from rfl, show 2 * (2 : ℕ) + 1 = 5 from rfl, h2]
    exact genEntry_of_grid _ 9 (by norm_num [N53]) (by norm_num [N53])
  · rw [show 2 * (3 : ℕ) = 6 from rfl, show 2 * (3 : ℕ) + 1 = 7 from rfl, h3]
    exact genEntry_of_grid _ 10 (by norm_num [N53]) (by norm_num [N53])
  · rw [show 2 * (4 : ℕ) = 8 from rfl, show 2 * (4 : ℕ) + 1 = 9 from rfl, h4]
    exact genEntry_of_grid _ 2 (by norm_num [N53]) (by norm_num [N53])
  · rw [show 2 * (5 : ℕ) = 10 from rfl, show 2 * (5 : ℕ) + 1 = 11 from rfl, h5]
    exact genEntry_of_grid _ 7 (by norm_num [N53]) (by norm_num [N53])
  · rw [show 2 * (6 : ℕ) = 12 from rfl, show 2 * (6 : ℕ) + 1 = 13 from rfl, h6]
    exact genEntry_of_grid _ 7 (by norm_num [N53]) (by norm_num [N53])
  · rw [show 2 * (7 : ℕ) = 14 from rfl, show 2 * (7 : ℕ) + 1 = 15 from rfl, h7]
    exact genEntry_of_grid _ 8 (by norm_num [N53]) (by norm_num [N53])

end ProdOpt
